import Mathlib

/-!
Verification of the WebAuthn/passkey authentication core.

Shallow embedding, in Lean 4, of the authentication core of a FastAPI +
Strawberry + SQLAlchemy relying-party application (`app/auth.py`,
`app/crud.py`, `app/graphql_schema.py`, `app/models.py`).  Python byte
strings are `List (Fin 256)`, strings are Lean `String`/`List Char`,
the database and the in-process challenge store are explicit state values,
and exceptions are `Except`/`Option` results.  Calls into the external
`fido2` library (whose source is not part of the repository) are
abstracted as function parameters, since the repository passes them an
empty ceremony `state` and none of the expected-value arguments.
-/

namespace App

abbrev Byte := Fin 256

/-! ## Base64URL (Python `base64.urlsafe_b64encode` / `urlsafe_b64decode`)

The repository always encodes with `base64.urlsafe_b64encode(b).rstrip(b'=')`
and always decodes with `base64.urlsafe_b64decode(s + '==')`.  We model the
alphabet, the sextet-level grouping, and the decoder's tolerance of the two
appended padding characters (CPython's lenient `a2b_base64` discards the
excess padding; after the data characters are collected it fails exactly
when their count is ≡ 1 (mod 4)). -/

/-- The URL-safe base64 alphabet: `A–Z`, `a–z`, `0–9`, `-`, `_`. -/
def b64urlChar (s : Fin 64) : Char :=
  if s.val < 26 then Char.ofNat (65 + s.val)
  else if s.val < 52 then Char.ofNat (97 + (s.val - 26))
  else if s.val < 62 then Char.ofNat (48 + (s.val - 52))
  else if s.val = 62 then '-'
  else '_'

/-- Inverse of the URL-safe alphabet; `none` on characters outside it
(CPython's lenient decoder discards those). -/
def b64urlIndex (c : Char) : Option (Fin 64) :=
  if h : 65 ≤ c.toNat ∧ c.toNat ≤ 90 then some ⟨c.toNat - 65, by omega⟩
  else if h : 97 ≤ c.toNat ∧ c.toNat ≤ 122 then some ⟨26 + (c.toNat - 97), by omega⟩
  else if h : 48 ≤ c.toNat ∧ c.toNat ≤ 57 then some ⟨52 + (c.toNat - 48), by omega⟩
  else if c = '-' then some ⟨62, by omega⟩
  else if c = '_' then some ⟨63, by omega⟩
  else none

/-- Bytes to sextets, 3 bytes per 4 sextets; the final 1- or 2-byte group
yields the 2 or 3 data sextets that remain once `=` padding is stripped. -/
def encodeGroups : List Byte → List (Fin 64)
  | [] => []
  | [b0] =>
      [⟨b0.val / 4, by have := b0.isLt; omega⟩,
       ⟨b0.val % 4 * 16, by have := b0.isLt; omega⟩]
  | [b0, b1] =>
      [⟨b0.val / 4, by have := b0.isLt; omega⟩,
       ⟨b0.val % 4 * 16 + b1.val / 16, by have := b0.isLt; have := b1.isLt; omega⟩,
       ⟨b1.val % 16 * 4, by have := b1.isLt; omega⟩]
  | b0 :: b1 :: b2 :: rest =>
      ⟨b0.val / 4, by have := b0.isLt; omega⟩ ::
      ⟨b0.val % 4 * 16 + b1.val / 16, by have := b0.isLt; have := b1.isLt; omega⟩ ::
      ⟨b1.val % 16 * 4 + b2.val / 64, by have := b1.isLt; have := b2.isLt; omega⟩ ::
      ⟨b2.val % 64, by have := b2.isLt; omega⟩ ::
      encodeGroups rest

/-- Sextets back to bytes.  A trailing group of a single sextet is the
`binascii.Error: Invalid padding` case, hence `none`. -/
def decodeGroups : List (Fin 64) → Option (List Byte)
  | [] => some []
  | [_] => none
  | [s0, s1] =>
      some [⟨s0.val * 4 + s1.val / 16, by have := s0.isLt; have := s1.isLt; omega⟩]
  | [s0, s1, s2] =>
      some [⟨s0.val * 4 + s1.val / 16, by have := s0.isLt; have := s1.isLt; omega⟩,
            ⟨s1.val % 16 * 16 + s2.val / 4, by have := s1.isLt; have := s2.isLt; omega⟩]
  | s0 :: s1 :: s2 :: s3 :: rest =>
      (decodeGroups rest).map fun bs =>
        ⟨s0.val * 4 + s1.val / 16, by have := s0.isLt; have := s1.isLt; omega⟩ ::
        ⟨s1.val % 16 * 16 + s2.val / 4, by have := s1.isLt; have := s2.isLt; omega⟩ ::
        ⟨s2.val % 4 * 64 + s3.val, by have := s2.isLt; have := s3.isLt; omega⟩ ::
        bs

/-- Python `base64.urlsafe_b64encode(b).rstrip(b'=')` as a character list: the
data characters of the encoding, the `=` padding stripped. -/
def urlsafeEncodeStrip (b : List Byte) : List Char :=
  (encodeGroups b).map b64urlChar

/-- Python `base64.urlsafe_b64encode(b).rstrip(b'=').decode('utf-8')` as a `String`. -/
def b64urlEncodeStr (b : List Byte) : String :=
  ⟨urlsafeEncodeStrip b⟩

/-- Python `base64.urlsafe_b64decode(s + '==')` as a character-list function:
the appended `'=='` guarantees a padding character terminates the data, so
the decoder consumes the alphabet characters before the first `=`
(discarding foreign characters, as CPython's lenient mode does) and then
regroups, failing exactly on a data length ≡ 1 (mod 4). -/
def urlsafeDecodePad2 (s : List Char) : Option (List Byte) :=
  decodeGroups ((s.takeWhile fun c => c ≠ '=').filterMap b64urlIndex)

/-- Python `base64.urlsafe_b64decode(s + '==')` on a `String`. -/
def b64urlDecodeStr (s : String) : Option (List Byte) :=
  urlsafeDecodePad2 s.data

/-! ## Data model (`app/models.py`) -/

/-- Model of `models.User`: identity row (`id` primary key, unique `username`). -/
structure User where
  id : Nat
  username : String
  displayName : String
deriving DecidableEq, Repr

/-- Model of `models.Credential`: one registered authenticator binding.  `id` is the
ORM primary key; `credentialId` and `publicKey` are raw byte strings;
`signCount` is the stored signature counter. -/
structure Credential where
  id : Nat
  userId : Nat
  credentialId : List Byte
  publicKey : List Byte
  signCount : Nat
deriving DecidableEq, Repr

/-- The relational store: the `users` and `credentials` tables as row lists. -/
structure Db where
  users : List User
  credentials : List Credential
deriving DecidableEq, Repr

/-! ## Credential Store operations (`app/crud.py`) -/

/-- Operation `crud.get_user`: first user row with the given id. -/
def get_user (db : Db) (userId : Nat) : Option User :=
  db.users.find? fun u => u.id == userId

/-- Operation `crud.get_user_by_username`: first user row with the given username. -/
def get_user_by_username (db : Db) (username : String) : Option User :=
  db.users.find? fun u => u.username == username

/-- Operation `crud.get_credentials_by_user`: all credential rows of a user. -/
def get_credentials_by_user (db : Db) (userId : Nat) : List Credential :=
  db.credentials.filter fun c => c.userId == userId

/-- Operation `crud.update_credential_sign_count`: mutates the fetched ORM row
(identified by its primary key) to the new counter and commits. -/
def update_credential_sign_count (db : Db) (credential : Credential)
    (newSignCount : Nat) : Db :=
  { db with
    credentials := db.credentials.map fun c =>
      if c.id == credential.id then { c with signCount := newSignCount } else c }

/-! ## Challenge store (`app/auth.py`, `temp_challenge_store`)

The source holds challenges in a module-level Python `dict`; we model the
dict as a function from keys to optional values, threaded explicitly. -/

/-- The in-memory challenge store `temp_challenge_store : Dict[str, str]`. -/
def ChallengeStore := String → Option String

/-- Operation `auth.save_challenge`: `temp_challenge_store[key] = challenge`. -/
def save_challenge (store : ChallengeStore) (key challenge : String) : ChallengeStore :=
  fun k => if k = key then some challenge else store k

/-- Operation `auth.get_challenge`: `temp_challenge_store.pop(key, None)` — returns the
stored value (or `none`) and unconditionally removes the entry. -/
def get_challenge (store : ChallengeStore) (key : String) :
    Option String × ChallengeStore :=
  (store key, fun k => if k = key then none else store k)

/-- Operation `auth.generate_challenge_key`: the f-string
`username + "_" + type + "_challenge"`. -/
def generate_challenge_key (username ty : String) : String :=
  username ++ "_" ++ ty ++ "_challenge"

/-! ## Session Issuer (`app/auth.py`, JWT functions)

A JWT is modelled as its claim set together with the signing key and
algorithm baked into the signature; `jwt.decode` succeeds exactly when the
key and algorithm match and the `exp` claim lies in the future (PyJWT
raises `ExpiredSignatureError` once `exp <= now`).  Times are seconds. -/

/-- The claim set of an access token: the `sub` entry of the `data` dict
(absent when the dict has no `"sub"` key) plus the `exp` claim. -/
structure JwtClaims where
  sub : Option String
  exp : Nat
deriving DecidableEq, Repr

/-- An encoded JWT: claims, signing key, and declared algorithm. -/
structure Jwt where
  claims : JwtClaims
  key : String
  alg : String
deriving DecidableEq, Repr

/-- Operation `auth.create_access_token`: copies the claim data and sets
`exp = now + expires_delta` (default `ACCESS_TOKEN_EXPIRE_MINUTES` minutes),
then signs with the process-wide secret and algorithm. -/
def create_access_token (secretKey alg : String) (sub : Option String)
    (now : Nat) (expiresDelta : Option Nat) (accessTokenExpireMinutes : Nat) : Jwt :=
  let expire := now + expiresDelta.getD (accessTokenExpireMinutes * 60)
  { claims := { sub := sub, exp := expire }, key := secretKey, alg := alg }

/-- Call `jwt.decode(token, SECRET_KEY, algorithms=[ALGORITHM])` at time `now`:
`none` models the `PyJWTError` raise (bad signature, wrong algorithm, or
expired `exp`). -/
def jwt_decode (token : Jwt) (secretKey : String) (algorithms : List String)
    (now : Nat) : Option JwtClaims :=
  if token.key = secretKey ∧ token.alg ∈ algorithms ∧ now < token.claims.exp then
    some token.claims
  else none

/-- The single 401 `credentials_exception` of `auth.get_current_user`. -/
inductive TokenError
  | credentialsException
deriving DecidableEq, Repr

/-- Operation `auth.get_current_user`: decode the token, require a `sub` claim, and
resolve the user; every failure is the same 401 exception. -/
def get_current_user (db : Db) (token : Jwt) (secretKey alg : String)
    (now : Nat) : Except TokenError User :=
  match jwt_decode token secretKey [alg] now with
  | none => .error .credentialsException
  | some payload =>
    match payload.sub with
    | none => .error .credentialsException
    | some username =>
      match get_user_by_username db username with
      | none => .error .credentialsException
      | some user => .ok user

/-! ## WebAuthn ceremony engine (`app/auth.py`)

The `fido2` library is an external collaborator whose source is not part of
the repository.  The repository calls `register_complete` /
`authenticate_complete` with `state={}` and never forwards the expected
challenge, origin, or RP ID, so each library call is abstracted as a
function parameter of whatever the repository actually passes it. -/

/-- Outcome of a Python call: normal return, a raised `ValueError` (which
the source's `except ValueError` clause catches), or any other raised
exception (caught by the blanket `except Exception`). -/
inductive LibResult (α : Type)
  | ok (a : α)
  | valueError
  | otherError
deriving DecidableEq, Repr

/-- The fields of the registration return value the caller reads
(`attested_credential_data.credential_public_key` / `.sign_count`). -/
structure RegCredentialData where
  credentialPublicKey : List Byte
  signCount : Nat
deriving DecidableEq, Repr

/-- The parsed `response` dict of a `RegistrationResponseJSON`: the entries
`verify_registration` reads.  `clientDataJSON` is handed to
`CollectedClientData` as-is (no Base64URL decode in the source);
`attestationObject` is Base64URL-decoded first. -/
structure RegResponse where
  id : String
  clientDataJSON : String
  attestationObject : String
deriving DecidableEq, Repr

/-- Behavior of the `fido2` registration calls as the repository invokes
them: `clientData s` is the `CollectedClientData(s)` construction, and
`registerComplete s att` is `AttestationObject(att)` construction followed
by `fido2_server.register_complete(state={}, ...)`.  Neither receives the
expected challenge, origin, or RP ID. -/
structure Fido2Reg where
  clientData : String → LibResult Unit
  registerComplete : String → List Byte → LibResult RegCredentialData

/-- Failure modes of `verify_registration`, tagged by raise site:
`badChallengeB64` is the `binascii.Error` from decoding
`expected_challenge_b64` before the `try` block (it propagates uncaught);
`registrationFailed` is the `except ValueError` branch (HTTP 400);
`internalError` is the blanket `except Exception` branch (HTTP 500). -/
inductive RegFailure
  | badChallengeB64
  | registrationFailed
  | internalError
deriving DecidableEq, Repr

/-- Operation `auth.verify_registration`.  Faithful to the source: the expected
challenge is decoded into a local that is never read again, and
`expected_origin`, `expected_rp_id`, `require_user_verification` are never
read at all — the library is called with `state={}` and only the client
data and attestation object. -/
def verify_registration (lib : Fido2Reg) (user : User) (resp : RegResponse)
    (expectedChallengeB64 : String) (expectedOrigin : String)
    (expectedRpId : String) (requireUserVerification : Bool) :
    Except RegFailure RegCredentialData :=
  match b64urlDecodeStr expectedChallengeB64 with
  | none => .error .badChallengeB64
  | some _challengeBytes =>
    match lib.clientData resp.clientDataJSON with
    | .valueError => .error .registrationFailed
    | .otherError => .error .internalError
    | .ok _ =>
      match b64urlDecodeStr resp.attestationObject with
      | none => .error .registrationFailed
      | some attObjBytes =>
        match lib.registerComplete resp.clientDataJSON attObjBytes with
        | .ok cred => .ok cred
        | .valueError => .error .registrationFailed
        | .otherError => .error .internalError

/-- The parsed `response` dict of an `AuthenticationResponseJSON`: the
entries `verify_authentication` reads, all Base64URL strings except
`clientDataJSON`, which is handed to `CollectedClientData` as-is. -/
structure AuthResponse where
  clientDataJSON : String
  authenticatorData : String
  signature : String
deriving DecidableEq, Repr

/-- Behavior of the `fido2` authentication calls as the repository invokes
them: `clientData s` is the `CollectedClientData(s)` construction and
`complete cred s authData sig` is
`fido2_server.authenticate_complete(state={}, credentials=[cred], ...)`.
Neither receives the expected challenge, origin, or RP ID. -/
structure Fido2Auth where
  clientData : String → LibResult Unit
  complete : Credential → String → List Byte → List Byte → LibResult Unit

/-- Field `AuthenticatorData(bytes).sign_count`: byte offset 33–36, big-endian,
after the 32-byte RP ID hash and the flags byte.  `none` models the
constructor raising on fewer than 37 bytes.  (Authenticator data carrying
attested-credential or extension blocks after byte 37 is outside the scope
of the claims verified here.) -/
def authDataSignCount (b : List Byte) : Option Nat :=
  if h : 37 ≤ b.length then
    some ((b.get ⟨33, by omega⟩).val * 16777216 + (b.get ⟨34, by omega⟩).val * 65536 +
          (b.get ⟨35, by omega⟩).val * 256 + (b.get ⟨36, by omega⟩).val)
  else none

/-- Failure modes of `verify_authentication`, tagged by raise site:
`credentialNotFound` is the HTTP 404 before the `try` block;
`badCredentialIdB64` / `badChallengeB64` are `binascii.Error`s raised before
the `try` block (they propagate uncaught); `verificationFailed` is the
`except ValueError` branch (HTTP 400); `replayDetected` is the
`HTTPException(400, "Authenticator counter mismatch. Possible replay
attack.")` raised by the counter check — in the source that exception is
itself caught by the blanket `except Exception` and re-surfaced as an HTTP
500 whose detail embeds the replay message; `internalError` is every other
exception reaching the blanket handler. -/
inductive AuthFailure
  | credentialNotFound
  | badCredentialIdB64
  | badChallengeB64
  | verificationFailed
  | replayDetected
  | internalError
deriving DecidableEq, Repr

/-- Operation `auth.verify_authentication`, returning the result together with the
database state.  Step order follows the source: resolve the credential
(`crud.get_credential_by_id`, which Base64URL-decodes the id), 404 if
absent; decode the expected challenge into a local that is never read
again; then inside `try`: decode `authenticatorData`, construct
`CollectedClientData`, decode `signature`, construct
`AuthenticatorData(auth_data_bytes)` and call `authenticate_complete` with
`state={}`; re-read `sign_count`, reject when it is `<=` the stored
counter, otherwise persist the new counter and return the (mutated)
credential row. -/
def verify_authentication (lib : Fido2Auth) (db : Db)
    (credentialIdB64 : String) (resp : AuthResponse)
    (expectedChallengeB64 : String) :
    Except AuthFailure Credential × Db :=
  match b64urlDecodeStr credentialIdB64 with
  | none => (.error .badCredentialIdB64, db)
  | some credIdBytes =>
    match db.credentials.find? (fun c => c.credentialId == credIdBytes) with
    | none => (.error .credentialNotFound, db)
    | some credential =>
      match b64urlDecodeStr expectedChallengeB64 with
      | none => (.error .badChallengeB64, db)
      | some _challengeBytes =>
        match b64urlDecodeStr resp.authenticatorData with
        | none => (.error .verificationFailed, db)
        | some authDataBytes =>
          match lib.clientData resp.clientDataJSON with
          | .valueError => (.error .verificationFailed, db)
          | .otherError => (.error .internalError, db)
          | .ok _ =>
            match b64urlDecodeStr resp.signature with
            | none => (.error .verificationFailed, db)
            | some signatureBytes =>
              match authDataSignCount authDataBytes with
              | none => (.error .internalError, db)
              | some newSignCount =>
                match lib.complete credential resp.clientDataJSON authDataBytes signatureBytes with
                | .valueError => (.error .verificationFailed, db)
                | .otherError => (.error .internalError, db)
                | .ok _ =>
                  if newSignCount ≤ credential.signCount then
                    (.error .replayDetected, db)
                  else
                    (.ok { credential with signCount := newSignCount },
                     update_credential_sign_count db credential newSignCount)

/-! ### Option generation (`generate_authentication_options`) -/

/-- Python truthiness of an `Optional[str]`: `None` and `""` are falsy. -/
def pyTruthy : Option String → Bool
  | none => false
  | some s => !(s == "")

/-- Python `int.from_bytes(b, 'big')`. -/
def int_from_bytes_big (b : List Byte) : Nat :=
  b.foldl (fun acc x => acc * 256 + x.val) 0

/-- The wire-level authentication options the caller reads: the fresh
challenge and the allow-list of credential ids, Base64URL-encoded. -/
structure AuthOptions where
  challenge : String
  allowCredentials : List String
deriving DecidableEq, Repr

/-- The HTTP 404 `"No credentials found for user ..."` failure of
`generate_authentication_options`. -/
inductive GenAuthFailure
  | notFound
deriving DecidableEq, Repr

/-- Operation `auth.generate_authentication_options`.  `libChallenge` stands for the
random challenge `fido2_server.authenticate_begin` generates; the options
it returns echo the allow-list it was passed.  A username (when truthy) is
resolved and its credentials populate the allow-list; otherwise a truthy
user handle is Base64URL-decoded to a user id — decode errors are
swallowed (`except (ValueError, TypeError): pass`).  The 404 fires exactly
when the allow-list is empty *and* a truthy username was supplied. -/
def generate_authentication_options (db : Db) (username : Option String)
    (userHandleB64 : Option String) (libChallenge : List Byte) :
    Except GenAuthFailure AuthOptions :=
  let allowCredentials : List (List Byte) :=
    if pyTruthy username then
      match get_user_by_username db (username.getD "") with
      | some user => (get_credentials_by_user db user.id).map (·.credentialId)
      | none => []
    else if pyTruthy userHandleB64 then
      match b64urlDecodeStr (userHandleB64.getD "") with
      | none => []
      | some userIdBytes =>
        match get_user db (int_from_bytes_big userIdBytes) with
        | some user => (get_credentials_by_user db user.id).map (·.credentialId)
        | none => []
    else []
  if allowCredentials.isEmpty && pyTruthy username then
    .error .notFound
  else
    .ok { challenge := b64urlEncodeStr libChallenge,
          allowCredentials := allowCredentials.map b64urlEncodeStr }

/-! ## GraphQL mutation layer (`app/graphql_schema.py`) -/

/-- The `Token` pydantic schema returned by the mutation. -/
structure Token where
  accessToken : Jwt
  tokenType : String
deriving DecidableEq, Repr

/-- Failure modes of `Mutation.verify_authentication`:
`challengeExpired` is the `"Authentication challenge expired or not
found"` StrawberryException raised when `get_challenge` returns `None`;
`invalidResponseFormat` covers the JSON/schema parse failures;
`httpDetail e` re-raises an `HTTPException` detail from
`auth.verify_authentication` as a StrawberryException; `unexpectedError`
is the blanket handler (it also absorbs the uncaught `binascii.Error`s). -/
inductive MutFailure
  | challengeExpired
  | invalidResponseFormat
  | httpDetail (e : AuthFailure)
  | unexpectedError
deriving DecidableEq, Repr

/-- How an exception escaping `auth.verify_authentication` surfaces in the
mutation: `HTTPException`s keep their detail, bare `binascii.Error`s hit
the blanket handler. -/
def surfaceAuthFailure (e : AuthFailure) : MutFailure :=
  match e with
  | .badCredentialIdB64 => .unexpectedError
  | .badChallengeB64 => .unexpectedError
  | e => .httpDetail e

/-- Operation `Mutation.verify_authentication`: pop the stored challenge (failing
with the challenge-expired error when absent), parse the response JSON
(`resp?` is the already-parsed result, `none` for a parse failure), run
`auth.verify_authentication`, and on success mint a JWT for
`verified_credential.user.username` (the owning user resolved through the
ORM relationship; a dangling `user_id` would raise into the blanket
handler).  Returns the result with the challenge-store and database
states. -/
def mutation_verify_authentication (lib : Fido2Auth) (secretKey alg : String)
    (accessTokenExpireMinutes : Nat) (now : Nat)
    (store : ChallengeStore) (db : Db)
    (credentialIdB64 : String) (resp? : Option AuthResponse)
    (challengeKey : String) :
    Except MutFailure Token × ChallengeStore × Db :=
  match get_challenge store challengeKey with
  | (none, store1) => (.error .challengeExpired, store1, db)
  | (some challengeB64, store1) =>
    match resp? with
    | none => (.error .invalidResponseFormat, store1, db)
    | some resp =>
      match verify_authentication lib db credentialIdB64 resp challengeB64 with
      | (.error e, db1) => (.error (surfaceAuthFailure e), store1, db1)
      | (.ok credential, db1) =>
        match get_user db1 credential.userId with
        | none => (.error .unexpectedError, store1, db1)
        | some user =>
          (.ok { accessToken :=
                   create_access_token secretKey alg (some user.username) now
                     (some (accessTokenExpireMinutes * 60)) accessTokenExpireMinutes,
                 tokenType := "bearer" },
           store1, db1)

/-! ## Concrete fixtures (for counterexamples and witnesses) -/

/-- Library behavior for authentication in which every check passes. -/
def okAuthLib : Fido2Auth :=
  { clientData := fun _ => .ok (), complete := fun _ _ _ _ => .ok () }

/-- Library behavior for registration in which every check passes. -/
def okRegLib : Fido2Reg :=
  { clientData := fun _ => .ok (),
    registerComplete := fun _ _ => .ok { credentialPublicKey := [], signCount := 0 } }

/-- A registered user. -/
def aliceUser : User := { id := 1, username := "alice", displayName := "Alice A" }

/-- A stored credential of `aliceUser` whose signature counter is 0 and
whose raw credential id is the empty byte string (Base64URL `""`). -/
def zeroCred : Credential :=
  { id := 1, userId := 1, credentialId := [], publicKey := [], signCount := 0 }

/-- Store holding `aliceUser` with `zeroCred`. -/
def fixtureDb : Db := { users := [aliceUser], credentials := [zeroCred] }

/-- The empty store. -/
def emptyDb : Db := { users := [], credentials := [] }

/-- An authentication response whose 37-byte authenticator data reports the
signature counter `n` (flags byte 0). -/
def authRespCounter (n : Byte) : AuthResponse :=
  { clientDataJSON := "cd",
    authenticatorData := b64urlEncodeStr (List.replicate 36 (0 : Byte) ++ [n]),
    signature := "" }

/-- A registration response fixture. -/
def regRespFixture : RegResponse :=
  { id := "", clientDataJSON := "cd", attestationObject := "" }

/-- A stored credential with a nonzero counter (5); its raw credential id
is the single byte 1 (Base64URL `AQ`). -/
def fiveCred : Credential :=
  { id := 2, userId := 1, credentialId := [1], publicKey := [], signCount := 5 }

/-- Store holding `aliceUser` with `fiveCred`. -/
def fixtureDb5 : Db := { users := [aliceUser], credentials := [fiveCred] }

/-! ### Round-trip: decode ∘ encode = id -/

theorem b64urlChar_ne_eq (s : Fin 64) : b64urlChar s ≠ '=' := by
  revert s; decide

theorem b64urlIndex_b64urlChar (s : Fin 64) : b64urlIndex (b64urlChar s) = some s := by
  revert s; decide

theorem decodeGroups_encodeGroups (b : List Byte) :
    decodeGroups (encodeGroups b) = some b := by
  induction b using encodeGroups.induct with
  | case1 => rfl
  | case2 b0 =>
      have h0 := b0.isLt
      simp only [encodeGroups, decodeGroups, Option.some.injEq, List.cons.injEq,
        and_true, Fin.ext_iff]
      omega
  | case3 b0 b1 =>
      have h0 := b0.isLt
      have h1 := b1.isLt
      simp only [encodeGroups, decodeGroups, Option.some.injEq, List.cons.injEq,
        and_true, Fin.ext_iff]
      omega
  | case4 b0 b1 b2 rest ih =>
      have h0 := b0.isLt
      have h1 := b1.isLt
      have h2 := b2.isLt
      simp only [encodeGroups, decodeGroups, ih, Option.map_some',
        Option.some.injEq, List.cons.injEq, Fin.ext_iff]
      refine ⟨by omega, by omega, by omega, trivial⟩

theorem takeWhile_encode (b : List Byte) :
    ((urlsafeEncodeStrip b).takeWhile fun c => c ≠ '=') = urlsafeEncodeStrip b := by
  rw [List.takeWhile_eq_self_iff]
  intro c hc
  simp only [urlsafeEncodeStrip, List.mem_map] at hc
  obtain ⟨s, _, rfl⟩ := hc
  simpa using b64urlChar_ne_eq s

theorem filterMap_index_encode (xs : List (Fin 64)) :
    (xs.map b64urlChar).filterMap b64urlIndex = xs := by
  induction xs with
  | nil => rfl
  | cons s rest ih =>
      simp [List.filterMap_cons, b64urlIndex_b64urlChar, ih]

/-! ## Helper lemmas -/

theorem find?_update_sign_count (l : List Credential) (bytes : List Byte)
    (cred : Credential) (n : Nat)
    (h : l.find? (fun c => c.credentialId == bytes) = some cred) :
    (l.map fun c => if c.id == cred.id then { c with signCount := n } else c).find?
      (fun c => c.credentialId == bytes) = some { cred with signCount := n } := by
  induction l with
  | nil => simp at h
  | cons a rest ih =>
      cases hpred : a.credentialId == bytes with
      | true =>
          simp only [List.find?_cons, hpred] at h
          obtain rfl : a = cred := by simpa using h
          simp [List.find?_cons, hpred]
      | false =>
          simp only [List.find?_cons, hpred] at h
          simp only [List.map_cons, List.find?_cons]
          have hcid :
              ((if (a.id == cred.id) = true then { a with signCount := n }
                else a).credentialId) = a.credentialId := by
            by_cases hid : (a.id == cred.id) = true <;> simp [hid]
          rw [hcid, hpred]
          exact ih h

theorem mutation_challengeExpired_of_store_none (lib : Fido2Auth)
    (secretKey alg : String) (minutes now : Nat) (store : ChallengeStore)
    (db : Db) (cid : String) (resp? : Option AuthResponse) (key : String)
    (h : store key = none) :
    (mutation_verify_authentication lib secretKey alg minutes now store db
        cid resp? key).1 = .error .challengeExpired := by
  unfold mutation_verify_authentication get_challenge
  rw [h]

theorem mutation_store_key_consumed (lib : Fido2Auth)
    (secretKey alg : String) (minutes now : Nat) (store : ChallengeStore)
    (db : Db) (cid : String) (resp? : Option AuthResponse) (key : String) :
    (mutation_verify_authentication lib secretKey alg minutes now store db
        cid resp? key).2.1 key = none := by
  unfold mutation_verify_authentication get_challenge
  cases hsk : store key with
  | none => simp
  | some ch =>
      cases resp? with
      | none => simp
      | some resp =>
          rcases hv : verify_authentication lib db cid resp ch with ⟨r, db1⟩
          cases r with
          | error e => simp [hv]
          | ok cred =>
              cases hg : get_user db1 cred.userId with
              | none => simp [hv, hg]
              | some u => simp [hv, hg]

/-! ## Claims -/

/-- Claim C6.  For every byte string, encoding it to unpadded Base64URL
(urlsafe encode, then strip the `=` padding) and decoding it with the
padding-tolerant decoder (append two `=` characters, then urlsafe decode)
reproduces the original bytes exactly — in particular for the lengths 0,
1, 16, 32, 255 named by the spec. -/
theorem b64url_roundtrip (b : List Byte) :
    b64urlDecodeStr (b64urlEncodeStr b) = some b := by
  show decodeGroups
      (((urlsafeEncodeStrip b).takeWhile fun c => c ≠ '=').filterMap b64urlIndex)
    = some b
  rw [takeWhile_encode, urlsafeEncodeStrip, filterMap_index_encode,
    decodeGroups_encodeGroups]

/-- Counterexample to C1.  The claim exempts a stored counter of zero from
the replay check, but the source's check `new_sign_count <=
credential.sign_count` has no such exemption: with a stored counter of 0,
a submitted counter of 0, and every library check passing,
`verify_authentication` fails with the counter-mismatch (replay) error
instead of succeeding. -/
theorem verify_authentication_zero_counter_not_exempt :
    verify_authentication okAuthLib fixtureDb "" (authRespCounter 0) ""
      = (.error .replayDetected, fixtureDb) := by
  rfl

/-- Claim C1 as amended.  Whenever the stored credential is found, every
decoding and library check passes, and the submitted counter is less than
or equal to the stored counter, `verify_authentication` fails with the
replay error and leaves the store unchanged — regardless of whether the
stored counter is zero or nonzero (the source has no zero exemption). -/
theorem verify_authentication_replay_counter
    (lib : Fido2Auth) (db : Db) (cidB64 chB64 : String) (resp : AuthResponse)
    (credIdBytes authBytes sigBytes : List Byte) (cred : Credential) (n : Nat)
    (hcid : b64urlDecodeStr cidB64 = some credIdBytes)
    (hfind : db.credentials.find? (fun c => c.credentialId == credIdBytes) = some cred)
    (hch : (b64urlDecodeStr chB64).isSome = true)
    (had : b64urlDecodeStr resp.authenticatorData = some authBytes)
    (hcd : lib.clientData resp.clientDataJSON = .ok ())
    (hsig : b64urlDecodeStr resp.signature = some sigBytes)
    (hn : authDataSignCount authBytes = some n)
    (hlib : lib.complete cred resp.clientDataJSON authBytes sigBytes = .ok ())
    (hle : n ≤ cred.signCount) :
    verify_authentication lib db cidB64 resp chB64 = (.error .replayDetected, db) := by
  obtain ⟨cb, hcb⟩ := Option.isSome_iff_exists.mp hch
  simp only [verify_authentication, hcid, hfind, hcb, had, hcd, hsig, hn, hlib,
    hle, if_true]

/-- Witness for the amended C1 theorem at a nonzero stored counter:
stored counter 5, submitted counter 3. -/
theorem verify_authentication_replay_counter_witness :
    verify_authentication okAuthLib fixtureDb5 "AQ" (authRespCounter 3) ""
      = (.error .replayDetected, fixtureDb5) :=
  verify_authentication_replay_counter okAuthLib fixtureDb5 "AQ" ""
    (authRespCounter 3) [1] (List.replicate 36 (0 : Byte) ++ [3]) [] fiveCred 3
    (by decide) (by decide) (by decide) (by decide) (by decide) (by decide)
    (by decide) (by decide) (by decide)

/-- Claim C4.  Whenever the stored credential is found, every decoding and
library check passes, and the submitted counter is strictly greater than
the stored counter, `verify_authentication` succeeds, returns the
credential with the new counter, and the stored row's counter is updated
to exactly the submitted value. -/
theorem verify_authentication_success_updates_counter
    (lib : Fido2Auth) (db : Db) (cidB64 chB64 : String) (resp : AuthResponse)
    (credIdBytes authBytes sigBytes : List Byte) (cred : Credential) (n : Nat)
    (hcid : b64urlDecodeStr cidB64 = some credIdBytes)
    (hfind : db.credentials.find? (fun c => c.credentialId == credIdBytes) = some cred)
    (hch : (b64urlDecodeStr chB64).isSome = true)
    (had : b64urlDecodeStr resp.authenticatorData = some authBytes)
    (hcd : lib.clientData resp.clientDataJSON = .ok ())
    (hsig : b64urlDecodeStr resp.signature = some sigBytes)
    (hn : authDataSignCount authBytes = some n)
    (hlib : lib.complete cred resp.clientDataJSON authBytes sigBytes = .ok ())
    (hgt : cred.signCount < n) :
    verify_authentication lib db cidB64 resp chB64
      = (.ok { cred with signCount := n }, update_credential_sign_count db cred n) ∧
    (update_credential_sign_count db cred n).credentials.find?
        (fun c => c.credentialId == credIdBytes) = some { cred with signCount := n } := by
  obtain ⟨cb, hcb⟩ := Option.isSome_iff_exists.mp hch
  refine ⟨?_, find?_update_sign_count db.credentials credIdBytes cred n hfind⟩
  simp only [verify_authentication, hcid, hfind, hcb, had, hcd, hsig, hn, hlib]
  rw [if_neg (by omega)]

/-- Witness for C4: stored counter 5, submitted counter 7. -/
theorem verify_authentication_success_updates_counter_witness :
    verify_authentication okAuthLib fixtureDb5 "AQ" (authRespCounter 7) ""
      = (.ok { fiveCred with signCount := 7 },
         update_credential_sign_count fixtureDb5 fiveCred 7) ∧
    (update_credential_sign_count fixtureDb5 fiveCred 7).credentials.find?
        (fun c => c.credentialId == [1]) = some { fiveCred with signCount := 7 } :=
  verify_authentication_success_updates_counter okAuthLib fixtureDb5 "AQ" ""
    (authRespCounter 7) [1] (List.replicate 36 (0 : Byte) ++ [7]) [] fiveCred 7
    (by decide) (by decide) (by decide) (by decide) (by decide) (by decide)
    (by decide) (by decide) (by decide)

/-- Claim C5.  Every failing call to `verify_authentication` — whatever the
failure — leaves the credential store exactly as it was: the counter is
persisted only on the success path. -/
theorem verify_authentication_failure_preserves_db
    (lib : Fido2Auth) (db db1 : Db) (cidB64 chB64 : String)
    (resp : AuthResponse) (e : AuthFailure)
    (h : verify_authentication lib db cidB64 resp chB64 = (.error e, db1)) :
    db1 = db := by
  unfold verify_authentication at h
  repeat' split at h
  all_goals injection h with h1 h2
  all_goals first
    | exact h2.symm
    | simp at h1

/-- Witness for C5: a replay failure leaves the store untouched. -/
theorem verify_authentication_failure_preserves_db_witness :
    fixtureDb5 = fixtureDb5 :=
  verify_authentication_failure_preserves_db okAuthLib fixtureDb5 fixtureDb5
    "AQ" "" (authRespCounter 3) .replayDetected (by rfl)

/-- Claim C2 (code bug).  The outcome of `verify_registration` is independent
of the expected challenge, the expected origin, the expected RP ID, and
the user-verification flag (whenever both expected-challenge strings
decode): the source decodes the expected challenge into a dead local,
never reads the other expected values, and calls the library with an
empty ceremony state.  Hence success cannot coincide with the issued
values matching, contradicting the claimed "succeeds iff challenge,
origin, and RP ID match". -/
theorem verify_registration_ignores_expected_values
    (lib : Fido2Reg) (user1 user2 : User) (resp : RegResponse)
    (c1 c2 o1 o2 r1 r2 : String) (uv1 uv2 : Bool)
    (h1 : (b64urlDecodeStr c1).isSome = true)
    (h2 : (b64urlDecodeStr c2).isSome = true) :
    verify_registration lib user1 resp c1 o1 r1 uv1
      = verify_registration lib user2 resp c2 o2 r2 uv2 := by
  obtain ⟨b1, hb1⟩ := Option.isSome_iff_exists.mp h1
  obtain ⟨b2, hb2⟩ := Option.isSome_iff_exists.mp h2
  unfold verify_registration
  rw [hb1, hb2]

/-- Witness for C2: the same response verifies identically against the
empty challenge and a completely different challenge, origin, and RP ID. -/
theorem verify_registration_ignores_expected_values_witness :
    verify_registration okRegLib aliceUser regRespFixture
        "" "http://localhost:3000" "localhost" true
      = verify_registration okRegLib aliceUser regRespFixture
          "AAAA" "http://evil.example" "evil" false :=
  verify_registration_ignores_expected_values okRegLib aliceUser aliceUser
    regRespFixture "" "AAAA" "http://localhost:3000" "http://evil.example"
    "localhost" "evil" true false (by decide) (by decide)

/-- Claim C3.  A challenge is consumed on first retrieval: a second
`get_challenge` on the same key with no intervening save returns `none`,
and a second `Mutation.verify_authentication` attempt with the same
challenge key (run on the state left by the first attempt) fails with the
challenge-expired error, regardless of the outcome of the first attempt. -/
theorem challenge_single_use (lib : Fido2Auth) (secretKey alg : String)
    (minutes now : Nat) (store : ChallengeStore) (db : Db)
    (credentialIdB64 : String) (resp? : Option AuthResponse) (key : String) :
    (get_challenge (get_challenge store key).2 key).1 = none ∧
    (mutation_verify_authentication lib secretKey alg minutes now
        (mutation_verify_authentication lib secretKey alg minutes now store db
            credentialIdB64 resp? key).2.1
        (mutation_verify_authentication lib secretKey alg minutes now store db
            credentialIdB64 resp? key).2.2
        credentialIdB64 resp? key).1 = .error .challengeExpired :=
  ⟨by simp [get_challenge],
   mutation_challengeExpired_of_store_none lib secretKey alg minutes now _ _
     credentialIdB64 resp? key
     (mutation_store_key_consumed lib secretKey alg minutes now store db
       credentialIdB64 resp? key)⟩

/-- Claim C7.  A token minted by `create_access_token` carries expiry equal to
issued-at plus the TTL, decodes successfully (with its subject claim)
immediately after issuance, and once the TTL has elapsed both `jwt.decode`
and `get_current_user` reject it. -/
theorem access_token_ttl (secretKey alg sub : String) (db : Db)
    (now ttl minutes : Nat) (httl : 0 < ttl) :
    (create_access_token secretKey alg (some sub) now (some ttl) minutes).claims.exp
      = now + ttl ∧
    jwt_decode (create_access_token secretKey alg (some sub) now (some ttl) minutes)
        secretKey [alg] now
      = some { sub := some sub, exp := now + ttl } ∧
    (∀ t, now + ttl ≤ t →
      jwt_decode (create_access_token secretKey alg (some sub) now (some ttl) minutes)
          secretKey [alg] t = none) ∧
    (∀ t, now + ttl ≤ t →
      get_current_user db
          (create_access_token secretKey alg (some sub) now (some ttl) minutes)
          secretKey alg t = .error .credentialsException) := by
  have hexpired : ∀ t, now + ttl ≤ t →
      jwt_decode (create_access_token secretKey alg (some sub) now (some ttl) minutes)
        secretKey [alg] t = none := by
    intro t ht
    unfold jwt_decode create_access_token
    rw [if_neg]
    rintro ⟨-, -, hlt⟩
    simp only [Option.getD_some] at hlt
    omega
  refine ⟨rfl, ?_, hexpired, ?_⟩
  · show jwt_decode
        { claims := { sub := some sub, exp := now + ttl },
          key := secretKey, alg := alg } secretKey [alg] now
      = some { sub := some sub, exp := now + ttl }
    unfold jwt_decode
    rw [if_pos ⟨rfl, by simp, (by omega : now < now + ttl)⟩]
  · intro t ht
    unfold get_current_user
    rw [hexpired t ht]

/-- Witness for C7 at key `k`, algorithm `HS256`, subject `alice`,
issued at 0 with TTL 1800: the expiry is 1800, decoding at time 0
succeeds, and decoding or resolving the user at time 1800 fails. -/
theorem access_token_ttl_witness :
    (create_access_token "k" "HS256" (some "alice") 0 (some 1800) 30).claims.exp
      = 1800 ∧
    jwt_decode (create_access_token "k" "HS256" (some "alice") 0 (some 1800) 30)
        "k" ["HS256"] 0 = some { sub := some "alice", exp := 1800 } ∧
    jwt_decode (create_access_token "k" "HS256" (some "alice") 0 (some 1800) 30)
        "k" ["HS256"] 1800 = none ∧
    get_current_user emptyDb
        (create_access_token "k" "HS256" (some "alice") 0 (some 1800) 30)
        "k" "HS256" 1800 = .error .credentialsException :=
  ⟨(access_token_ttl "k" "HS256" "alice" emptyDb 0 1800 30 (by decide)).1,
   (access_token_ttl "k" "HS256" "alice" emptyDb 0 1800 30 (by decide)).2.1,
   (access_token_ttl "k" "HS256" "alice" emptyDb 0 1800 30 (by decide)).2.2.1 1800
     (by decide),
   (access_token_ttl "k" "HS256" "alice" emptyDb 0 1800 30 (by decide)).2.2.2 1800
     (by decide)⟩

/-- Claim C8.  When `generate_authentication_options` is given a (truthy)
username and either no user resolves or the resolved user has no
credentials, it fails with the 404 rather than returning options with an
empty allow-list. -/
theorem generate_authentication_options_no_credentials
    (db : Db) (username : String) (userHandleB64 : Option String)
    (libChallenge : List Byte)
    (hu : username ≠ "")
    (hcase : get_user_by_username db username = none ∨
      ∃ u, get_user_by_username db username = some u ∧
        get_credentials_by_user db u.id = []) :
    generate_authentication_options db (some username) userHandleB64 libChallenge
      = .error .notFound := by
  have htruthy : pyTruthy (some username) = true := by
    simp [pyTruthy, hu]
  unfold generate_authentication_options
  rcases hcase with hnone | ⟨u, hsome, hempty⟩
  · simp [htruthy, hnone]
  · simp [htruthy, hsome, hempty]

/-- Witness for C8: user `bob` is unknown in the empty store. -/
theorem generate_authentication_options_no_credentials_witness :
    generate_authentication_options emptyDb (some "bob") none []
      = .error .notFound :=
  generate_authentication_options_no_credentials emptyDb "bob" none []
    (by decide) (Or.inl (by rfl))

/-- Claim C9.  When `generate_authentication_options` is given no username and
a user handle that either fails Base64URL decoding or resolves to no
stored user, it does not fail: the handle is silently ignored and fresh
options with an empty allow-list are returned. -/
theorem generate_authentication_options_ignores_bad_handle
    (db : Db) (userHandleB64 : String) (libChallenge : List Byte)
    (hcase : b64urlDecodeStr userHandleB64 = none ∨
      ∃ bytes, b64urlDecodeStr userHandleB64 = some bytes ∧
        get_user db (int_from_bytes_big bytes) = none) :
    generate_authentication_options db none (some userHandleB64) libChallenge
      = .ok { challenge := b64urlEncodeStr libChallenge, allowCredentials := [] } := by
  unfold generate_authentication_options
  by_cases ht : pyTruthy (some userHandleB64) = true
  · rcases hcase with hnone | ⟨bytes, hsome, hnouser⟩
    · simp [ht, hnone, show pyTruthy none = false from rfl]
    · simp [ht, hsome, hnouser, show pyTruthy none = false from rfl]
  · have ht2 : pyTruthy (some userHandleB64) = false := by
      simpa using ht
    simp [ht2, show pyTruthy none = false from rfl]

/-- Witness for C9: the handle `A` is not valid Base64URL (one data
character is an invalid padding length), yet options are returned. -/
theorem generate_authentication_options_ignores_bad_handle_witness :
    generate_authentication_options emptyDb none (some "A") []
      = .ok { challenge := b64urlEncodeStr [], allowCredentials := [] } :=
  generate_authentication_options_ignores_bad_handle emptyDb "A" []
    (Or.inl (by rfl))

/-- Claim C10.  The challenge-key derivation is injective on its intended
domain: distinct (username, ceremony-type) pairs with type `reg` or
`auth` always yield distinct keys, so pending registration and
authentication challenges never overwrite one another in the store. -/
theorem generate_challenge_key_injective (u1 u2 t1 t2 : String)
    (h1 : t1 = "reg" ∨ t1 = "auth") (h2 : t2 = "reg" ∨ t2 = "auth")
    (hne : (u1, t1) ≠ (u2, t2)) :
    generate_challenge_key u1 t1 ≠ generate_challenge_key u2 t2 := by
  intro heq
  have hd : ("_challenge".data.reverse ++
        (t1.data.reverse ++ ("_".data.reverse ++ u1.data.reverse)))
      = ("_challenge".data.reverse ++
        (t2.data.reverse ++ ("_".data.reverse ++ u2.data.reverse))) := by
    have hdata := congrArg (fun s : String => s.data.reverse) heq
    simpa [generate_challenge_key, String.data_append, List.reverse_append,
      List.append_assoc] using hdata
  have hd2 := List.append_cancel_left hd
  have husers : ∀ s : String, t1 = s → t2 = s → u1 = u2 := by
    rintro s rfl rfl
    have hd3 := List.append_cancel_left hd2
    have hd4 := List.append_cancel_left hd3
    exact String.ext (List.reverse_injective hd4)
  rcases h1 with rfl | rfl <;> rcases h2 with rfl | rfl
  · exact hne (by rw [husers "reg" rfl rfl])
  · rw [show ("reg" : String).data.reverse = ['g', 'e', 'r'] from rfl,
      show ("auth" : String).data.reverse = ['h', 't', 'u', 'a'] from rfl] at hd2
    simp only [List.cons_append, List.nil_append] at hd2
    injection hd2 with hch hrest
    exact absurd hch (by decide)
  · rw [show ("reg" : String).data.reverse = ['g', 'e', 'r'] from rfl,
      show ("auth" : String).data.reverse = ['h', 't', 'u', 'a'] from rfl] at hd2
    simp only [List.cons_append, List.nil_append] at hd2
    injection hd2 with hch hrest
    exact absurd hch (by decide)
  · exact hne (by rw [husers "auth" rfl rfl])

/-- Witness for C10: the registration key and the authentication key of
the same user differ. -/
theorem generate_challenge_key_injective_witness :
    generate_challenge_key "alice" "reg" ≠ generate_challenge_key "alice" "auth" :=
  generate_challenge_key_injective "alice" "alice" "reg" "auth"
    (Or.inl rfl) (Or.inr rfl) (by decide)

end App
